import Mathlib

/-!
Shallow embedding of the Colonyzer driver scripts
(`src/scripts/parseAndRun.py` and `src/scripts/timecourse_fixedpos.py`)
used to check the natural-language specification against the code.

Images are 2-D arrays of rational pixel intensities; the filesystem is an
association list from path to file content.  Functions from the `colonyzer2`
library (not under `src/`) that a claim depends on are modelled from the
specification and carry a doc comment saying so.
-/

/-- Errors the Python scripts can raise in the paths we model:
`nameError` for use of a never-assigned local, `valueError` for a failed
string-to-integer conversion. -/
inductive PyErr
  | nameError
  | valueError
deriving DecidableEq, Repr

/-- 2-D pixel array (list of rows), pixels are exact rationals. -/
abbrev Arr := List (List ℚ)

/-- Boolean mask with the same layout as an `Arr`. -/
abbrev BMask := List (List Bool)

/-- Filesystem model: association list from path to file content. -/
abbrev FS := List (String × String)

/-- `int.__call__` on a string: Python raises `ValueError` on junk. -/
def pyInt (s : String) : Except PyErr ℤ :=
  match s.toInt? with
  | some n => Except.ok n
  | none => Except.error PyErr.valueError

/-- `os.path.basename`: the part after the last slash. -/
def basename (p : String) : String :=
  (p.splitOn ("/")).getLastD ("")

/-- `os.path.dirname`: everything before the last slash (empty for a bare name). -/
def dirname (p : String) : String :=
  match (p.splitOn ("/")).dropLast with
  | [] => ""
  | h :: t => t.foldl (fun acc s => acc ++ ("/") ++ s) h

/-- `os.path.join a b` for a relative second component. -/
def pyJoin (a b : String) : String :=
  if a = ("") then b else a ++ ("/") ++ b

/-- `name.split(".")[0]`: the filename stem before the first dot. -/
def stem (s : String) : String :=
  (s.splitOn (".")).headD ("")

/-- Lock-marker path for an image, from
`os.path.join(os.path.dirname(img),"Output_Data",os.path.basename(img).split(".")[0]+".out")`
(parseAndRun.py line 199, timecourse_fixedpos.py line 175). -/
def markerName (p : String) : String :=
  pyJoin (dirname p) (pyJoin ("Output_Data") (stem (basename p) ++ (".out")))

/-- Command-line arguments after argparse (parseAndRun.py `parseArgs`).
`fixthresh` is `None` when the option is absent; `fmt` is the list of
grid-format tokens (argparse takes one or more tokens, defaulting to the single token 384). -/
structure Args where
  lc : Bool
  diffims : Bool
  plots : Bool
  initpos : Bool
  cut : Bool
  quiet : Bool
  dir : String
  logsdir : String
  fixthresh : Option ℚ
  usedict : Option String
  fmt : List String
deriving DecidableEq, Repr

/-- The `res` dictionary returned by parseAndRun.py `buildVars` (line 121). -/
structure Config where
  lc : Bool
  fixedThresh : ℚ
  plots : Bool
  initpos : Bool
  fdict : Option String
  fdir : String
  nrow : ℤ
  ncol : ℤ
  cut : Bool
  verbose : Bool
  diffims : Bool
deriving DecidableEq, Repr

/-- Modelled from the spec: `c2.parsePlateFormat` lives in the colonyzer2
library, not under `src/`.  Spec 8: format 384 resolves to (16,24) rows by
columns, 96/768/1536 scale accordingly, and an explicit "24x16" resolves to
(24,16); an unrecognised token is a configuration error. -/
def parsePlateFormat (s : String) : Except PyErr (ℤ × ℤ) :=
  if s = ("96") then Except.ok (8, 12)
  else if s = ("384") then Except.ok (16, 24)
  else if s = ("768") then Except.ok (32, 24)
  else if s = ("1536") then Except.ok (32, 48)
  else
    match s.splitOn ("x") with
    | [a, b] => do
        let x ← pyInt a
        let y ← pyInt b
        Except.ok (x, y)
    | _ => Except.error PyErr.valueError

/-- Grid-format handling from parseAndRun.py lines 72-78: more than two
tokens prints a warning and yields `(0, 0)`; one token goes through
`parsePlateFormat`; two tokens are converted with `int` (which can raise
`ValueError`); argparse guarantees at least one token, so the empty list is
modelled as the unpacking error Python would raise. -/
def fmtStage (fmt : List String) : Except PyErr (ℤ × ℤ) :=
  if fmt.length > 2 then Except.ok (0, 0)
  else
    match fmt with
    | [a] => parsePlateFormat a
    | [a, b] => do
        let x ← pyInt a
        let y ← pyInt b
        Except.ok (x, y)
    | _ => Except.error PyErr.valueError

/-- parseAndRun.py `locateJSON`: path assembled from the screen identifier
(`scrID[0:-4]` is modelled by dropping the last four characters). -/
def locateJSON (scrID dirHTS : String) : String :=
  pyJoin dirHTS (scrID.take (scrID.length - 4) ++ ("_EXPERIMENTS/") ++ scrID
    ++ ("/AUXILIARY/") ++ scrID ++ ("_C2.json"))

/-- Python `s[-5:]`: the last five characters (the whole string when shorter). -/
def lastFive (s : String) : String :=
  s.drop (s.length - 5)

/-- The `usedict`/`fdict` selection of `buildVars` (parseAndRun.py lines
80-86); `os.path.realpath` is modelled as the identity. -/
def fdictStage (usedict : Option String) (logsdir : String) : Option String :=
  match usedict with
  | none => none
  | some u =>
      if lastFive u = (".json") || lastFive u = (".JSON") then some u
      else some (locateJSON u logsdir)

/-- parseAndRun.py `buildVars` (lines 53-122).  The local variables
`diffIms` and `cut` are assigned only inside the `if verbose:` reporting
block (lines 88-118), while the returned `res` dictionary (line 121) reads
both; with the quiet flag set, `verbose` is `False`, the block is skipped
and line 121 raises an uncaught `NameError`.  A malformed two-token grid
format raises `ValueError` earlier, at line 78. -/
def buildVars (a : Args) : Except PyErr Config :=
  let verbose := !a.quiet
  let fdir := a.dir
  let fixedThresh := match a.fixthresh with
    | some t => t
    | none => -99
  match fmtStage a.fmt with
  | Except.error e => Except.error e
  | Except.ok nc =>
      let fdict := fdictStage a.usedict a.logsdir
      if verbose then
        let diffIms := a.lc && a.diffims
        let cutFlag := a.lc && a.cut
        Except.ok ⟨a.lc, fixedThresh, a.plots, a.initpos, fdict, fdir,
          nc.1, nc.2, cutFlag, verbose, diffIms⟩
      else
        Except.error PyErr.nameError

/-- Elementwise product of two equally shaped arrays (`numpy` `*`). -/
def mul2 (a b : Arr) : Arr :=
  List.zipWith (fun r s => List.zipWith (fun p q => p * q) r s) a b

/-- Add a scalar to every pixel (`numpy` broadcast `+`). -/
def addScalar (a : Arr) (c : ℚ) : Arr :=
  a.map (fun r => r.map (fun p => p + c))

/-- `mask = numpy.ones(shape); mask[a < t] = False`: a pixel is signal
exactly when it is not below the threshold. -/
def maskFromThresh (a : Arr) (t : ℚ) : BMask :=
  a.map (fun r => r.map (fun p => !(decide (p < t))))

/-- `a[y0:y1, x0:x1]` for nonnegative clamped bounds. -/
def slice2 {α : Type} (a : List (List α)) (y0 y1 x0 x1 : ℕ) : List (List α) :=
  ((a.drop y0).take (y1 - y0)).map (fun r => (r.drop x0).take (x1 - x0))

/-- Row-major flattening of a 2-D array. -/
def flatten2 {α : Type} (a : List (List α)) : List α :=
  a.foldr (fun r acc => r ++ acc) []

/-- `numpy.mean` of a list of rationals (0 on the empty list, which the
scripts never hit on real plates). -/
def listMean (l : List ℚ) : ℚ :=
  l.sum / l.length

/-- `numpy.mean(a[numpy.logical_not(m)])`: mean over pixels whose mask
entry is `false`. -/
def meanWhereFalse (a : Arr) (m : BMask) : ℚ :=
  listMean (((flatten2 a).zip (flatten2 m)).filterMap
    (fun pm => if pm.2 then none else some pm.1))

/-- `int(round(q))` on coordinates; half-ties round up (the scripts only
apply this to nonnegative plate coordinates). -/
def pyRound (q : ℚ) : ℤ :=
  ⌊q + 1 / 2⌋

/-- Culture locations data frame: integer pixel coordinates of the cell
corners, as produced by `c2.locateCultures`. -/
structure Locations where
  xs : List ℤ
  ys : List ℤ
deriving DecidableEq, Repr

/-- `numpy.min` over a coordinate column (0 on an empty column). -/
def listMinZ (l : List ℤ) : ℤ :=
  match l with
  | [] => 0
  | h :: t => t.foldl min h

/-- `numpy.max` over a coordinate column (0 on an empty column). -/
def listMaxZ (l : List ℤ) : ℤ :=
  match l with
  | [] => 0
  | h :: t => t.foldl max h

/-- The plate-wall trim window of parseAndRun.py line 242 (identical
expressions at lines 265-266 and timecourse_fixedpos.py lines 211, 234-235):
`max(0,int(round(min(y)-dy/2)))` to `min(rows,int(round(max(y)+dy/2)))` and
likewise for columns. -/
def trimWindow (loc : Locations) (dx dy : ℚ) (rows cols : ℕ) : ℕ × ℕ × ℕ × ℕ :=
  let y0 := (max 0 (pyRound ((listMinZ loc.ys : ℚ) - dy / 2))).toNat
  let y1 := (min (rows : ℤ) (pyRound ((listMaxZ loc.ys : ℚ) + dy / 2))).toNat
  let x0 := (max 0 (pyRound ((listMinZ loc.xs : ℚ) - dx / 2))).toNat
  let x1 := (min (cols : ℤ) (pyRound ((listMaxZ loc.xs : ℚ) + dx / 2))).toNat
  (y0, y1, x0, x1)

/-- `corrected_arrN` trimmed to the plate interior (parseAndRun.py line 242). -/
def trimmedArr (corrected_arrN : Arr) (loc : Locations) (dx dy : ℚ)
    (rows cols : ℕ) : Arr :=
  match trimWindow loc dx dy rows cols with
  | (y0, y1, x0, x1) => slice2 corrected_arrN y0 y1 x0 x1

/-- Mean intensity of the bounding window of the grid,
`numpy.mean(a[min(y):max(y), min(x):max(x)])` (parseAndRun.py line 238). -/
def gridWindowMean (a : Arr) (loc : Locations) : ℚ :=
  listMean (flatten2 (slice2 a (listMinZ loc.ys).toNat (listMaxZ loc.ys).toNat
    (listMinZ loc.xs).toNat (listMaxZ loc.xs).toNat))

/-- Modelled from the spec: `c2.makeCorrectionMap` lives in the colonyzer2
library, not under `src/`.  Spec 4.4: from the (pseudo-)empty image derive a
per-pixel multiplicative map that flattens lighting gradients together with
the scalar mean background level inside the grid window; smoothing is a
provided numeric primitive and is modelled as the identity, so the map is
the pointwise ratio of the average background to the pixel. -/
def makeCorrectionMap (pseudoempty : Arr) (loc : Locations) : Arr × ℚ :=
  let ab := gridWindowMean pseudoempty loc
  (pseudoempty.map (fun r => r.map (fun p => ab / p)), ab)

/-- Result of the lighting-correction stage of parseAndRun.py `main`
(lines 220-239): the correction map when one was assigned, the scalar
average background, and the corrected reference array. -/
structure CorrOut where
  correction_map : Option Arr
  average_back : ℚ
  corrected_arrN : Arr
deriving DecidableEq, Repr

/-- The lighting-correction stage of parseAndRun.py `main`, lines 220-239.
In signal-removal mode (`correction` and `cut` both set) lines 222-229
synthesize the pseudo-empty plate, but lines 233-236 — the only assignments
to `correction_map` and `corrected_arrN` — sit inside the `else` branch of
`if cut:`, so the first use of `corrected_arrN` at line 242 raises an
uncaught `NameError`.  Without correction, line 238 computes the average
background over the grid window of the earliest image and the reference
array is used raw (`correction_map` is never assigned but also never read). -/
def correctionStage (correction cut : Bool) (arr0 arrN : Arr)
    (loc : Locations) : Except PyErr CorrOut :=
  if correction then
    if cut then
      Except.error PyErr.nameError
    else
      let pseudoempty := arr0
      let mc := makeCorrectionMap pseudoempty loc
      Except.ok ⟨some mc.1, mc.2, mul2 arrN mc.1⟩
  else
    Except.ok ⟨none, gridWindowMean arr0 loc, arrN⟩

/-- Where the segmentation threshold came from (parseAndRun.py lines
244-247): either the fixed override used verbatim, or the automatic
histogram-model fit (`c2.automaticThreshold`), recorded together with the
exact array the fit is invoked on. -/
inductive ThreshSrc
  | fixed (t : ℚ)
  | autoFit (trimmed : Arr)
deriving DecidableEq, Repr

/-- Threshold selection, parseAndRun.py lines 244-247 (identically
timecourse_fixedpos.py lines 213-222): a nonnegative `fixedThresh` is used
directly, otherwise the automatic fit runs on the trimmed array. -/
def chooseThresh (fixedThresh : ℚ) (trimmed : Arr) : ThreshSrc :=
  if 0 ≤ fixedThresh then ThreshSrc.fixed fixedThresh
  else ThreshSrc.autoFit trimmed

/-- The whole threshold stage of parseAndRun.py `main` (lines 242-247):
trim `corrected_arrN` to the plate interior, then select the threshold. -/
def threshStage (cfg : Config) (corrected_arrN : Arr) (loc : Locations)
    (dx dy : ℚ) (rows cols : ℕ) : ThreshSrc :=
  chooseThresh cfg.fixedThresh (trimmedArr corrected_arrN loc dx dy rows cols)

/-- What one iteration of the per-image loop produces: the (possibly
corrected and drift-shifted) pixel array, the adjusted threshold, and the
segmentation mask handed to `c2.measureSizeAndColour`. -/
structure ImgStep where
  arr : Arr
  threshadj : ℚ
  mask : BMask
deriving DecidableEq, Repr

/-- The per-image loop body of parseAndRun.py `main` (lines 259-275).
The opened image `rawArr` is multiplied by the correction map when lighting
correction is on; with `diffIms` the mean background intensity of the
current image inside the trim window is compared to `average_back` and the
difference shifts both pixels (line 269) and threshold (line 270).  The
mask (lines 274-275) is `ones` with entries below the threshold cleared —
indexed by `corrected_arrN < threshadj`, the corrected array of the
reference (latest) image, not by the array of the current image. -/
def processImage (correction diffIms : Bool) (correction_map corrected_arrN : Arr)
    (maskN : BMask) (thresh average_back : ℚ) (y0 y1 x0 x1 : ℕ)
    (rawArr : Arr) : ImgStep :=
  let arr := if correction then mul2 rawArr correction_map else rawArr
  if diffIms then
    let arrsm := slice2 arr y0 y1 x0 x1
    let masksm := slice2 maskN y0 y1 x0 x1
    let meanPx := meanWhereFalse arrsm masksm
    ⟨addScalar arr (average_back - meanPx), thresh + (average_back - meanPx),
      maskFromThresh corrected_arrN (thresh + (average_back - meanPx))⟩
  else
    ⟨arr, thresh, maskFromThresh corrected_arrN thresh⟩

/-- The per-image loop body of timecourse_fixedpos.py `main` (lines
229-243).  Lines 234-236 compute `meanPx` but the drift shift (lines
238-239) is commented out, so `threshadj = thresh` always; the mask (lines
242-243) is indexed by `arrN < threshadj`, the raw latest image, even when
lighting correction is enabled. -/
def processImageTC (correction : Bool) (correction_map arrN : Arr)
    (thresh : ℚ) (rawArr : Arr) : ImgStep :=
  let arr := if correction then mul2 rawArr correction_map else rawArr
  ⟨arr, thresh, maskFromThresh arrN thresh⟩

/-- The segmentation mask required by the specification (spec 4.5): the
threshold is compared against the corrected array of the current image when
lighting correction is enabled and against its raw array otherwise, never
against the array of another image. -/
def specSegMask (correction : Bool) (correction_map rawArr : Arr) (t : ℚ) : BMask :=
  maskFromThresh (if correction then mul2 rawArr correction_map else rawArr) t

/-- Modelled from the spec: `c2.checkAnalysisStarted` lives in the
colonyzer2 library, not under `src/`.  Spec 3 (LockMarker): marker
existence implies claimed-or-complete; its absence is the sole
eligibility signal.  The marker path is the one the scripts create. -/
def checkAnalysisStarted (fs : FS) (imagePath : String) : Bool :=
  (fs.lookup (markerName imagePath)).isSome

/-- The filter dropping barcodes whose analysis already started, applied to
an assoc list of barcode to ordered image list.  This is the dictionary
comprehension at parseAndRun.py lines 19 and 300 (the earliest image is the
last list element). -/
def dropStarted (fs : FS) (d : List (String × List String)) :
    List (String × List String) :=
  d.filter (fun e => !(checkAnalysisStarted fs (e.2.getLastD (""))))

/-- Modelled from the spec: `c2.getBarcodes` lives in the colonyzer2
library, not under `src/`.  Spec 4.1: a directory scan groups image paths
by barcode and excludes any barcode whose LockMarker already exists.
`scan` is the grouped directory listing before exclusion. -/
def getBarcodes (fs : FS) (scan : List (String × List String)) :
    List (String × List String) :=
  dropStarted fs scan

/-- parseAndRun.py `checkImages` (lines 13-26): with a manifest, load it
and drop the barcodes already being analysed; otherwise scan the directory
(`manifest` holds the parsed JSON contents when a manifest path is given). -/
def checkImages (fs : FS) (manifest : Option (List (String × List String)))
    (scan : List (String × List String)) : List (String × List String) :=
  match manifest with
  | some d => dropStarted fs d
  | none => getBarcodes fs scan

/-- `open(path, "w").close()`: create the file, or truncate it to empty if
it already exists; either way the call succeeds. -/
def openTruncate (fs : FS) (p : String) : FS :=
  (p, ("")) :: fs.filter (fun e => !(decide (e.1 = p)))

/-- The lock-marker claim of parseAndRun.py line 199 (timecourse_fixedpos.py
line 175): a plain mode-"w" open of the marker derived from the earliest
image; returns the new filesystem and whether the claim succeeded. -/
def claimMarker (fs : FS) (earliest : String) : FS × Bool :=
  (openTruncate fs (markerName earliest), true)

/-- Insert into a key-sorted assoc list (helper for `pySorted`). -/
def insertByKey (x : String × List String) :
    List (String × List String) → List (String × List String)
  | [] => [x]
  | y :: ys => if x.1 ≤ y.1 then x :: y :: ys else y :: insertByKey x ys

/-- Python `sorted` over the barcode keys of the dictionary. -/
def pySorted : List (String × List String) → List (String × List String)
  | [] => []
  | x :: xs => insertByKey x (pySorted xs)

/-- parseAndRun.py `prepareTimecourse` (lines 129-143): the first barcode
in sorted order together with its latest (first) and earliest (last)
image paths. -/
def prepareTC (d : List (String × List String)) :
    Option (String × String × String) :=
  match pySorted d with
  | [] => none
  | (b, ims) :: _ => some (b, ims.headD (""), ims.getLastD (""))

/-- Observable filesystem events at the start of a barcode iteration. -/
inductive Ev
  | lockCreate (path : String)
  | openImage (path : String)
deriving DecidableEq, Repr

/-- Events of parseAndRun.py `main` lines 198-207 for one barcode: create
the lock marker, open the latest image, and open the earliest image only
when it differs from the latest (lines 204-207 reuse the loaded image
otherwise). -/
def batchStartEventsPA (latest earliest : String) : List Ev :=
  [Ev.lockCreate (markerName earliest), Ev.openImage latest]
    ++ (if latest = earliest then [] else [Ev.openImage earliest])

/-- Events of timecourse_fixedpos.py `main` lines 174-180 for one barcode:
create the lock marker, open the latest image, then open the earliest image
unconditionally (there is no identity check before the second open). -/
def batchStartEventsTC (latest earliest : String) : List Ev :=
  [Ev.lockCreate (markerName earliest), Ev.openImage latest,
    Ev.openImage earliest]

/-- The prefix of parseAndRun.py `main` (lines 182-207) up to the image
opens of the first barcode: build the configuration, build the barcode
index, and if any barcode survives the lock filter, claim it and open its
endpoint images.  No branch in this prefix consults `nrow` or `ncol`. -/
def mainStartTrace (a : Args) (fs : FS)
    (manifest scan : List (String × List String)) : Except PyErr (List Ev) :=
  match buildVars a with
  | Except.error e => Except.error e
  | Except.ok cfg =>
      let barcdict := checkImages fs (cfg.fdict.map (fun _ => manifest)) scan
      match prepareTC barcdict with
      | none => Except.ok []
      | some ble => Except.ok (batchStartEventsPA ble.2.1 ble.2.2)

/-- One measurement row of the cumulative per-plate series: which image it
came from and which grid cell it describes. -/
structure Row where
  image : String
  cellIndex : ℕ
deriving DecidableEq, Repr

/-- Modelled from the spec: `c2.measureSizeAndColour` lives in the
colonyzer2 library, not under `src/`.  Spec 4.6: for every grid cell one
measurement record is produced, so an image on an `nrow` by `ncol` grid
yields `nrow * ncol` rows, cells in a fixed order. -/
def measureRows (nrow ncol : ℕ) (image : String) : List Row :=
  (List.range (nrow * ncol)).map (fun c => ⟨image, c⟩)

/-- The rows of a whole batch in image-then-cell order. -/
def batchRows (nrow ncol : ℕ) : List String → List Row
  | [] => []
  | i :: is => measureRows nrow ncol i ++ batchRows nrow ncol is

/-- The per-barcode image loop of parseAndRun.py `main` (lines 255-282):
images are processed in list order and the row set of each image is appended to
the cumulative per-plate series (modelled from the spec: the cumulative
series file written by the library layer is append-only, spec 4.6). -/
def processBatch (nrow ncol : ℕ) (images : List String) (series : List Row) :
    List Row :=
  images.foldl (fun acc img => acc ++ measureRows nrow ncol img) series

lemma buildVars_ok_fields (a : Args) (cfg : Config)
    (h : buildVars a = Except.ok cfg) :
    cfg.diffims = (a.lc && a.diffims) ∧ cfg.fixedThresh = a.fixthresh.getD (-99) := by
  unfold buildVars at h
  rcases hf : fmtStage a.fmt with e | nc <;> rw [hf] at h
  · cases h
  · cases hq : a.quiet <;> rw [hq] at h
    · simp only [Bool.not_false, if_true] at h
      cases h
      refine ⟨rfl, ?_⟩
      cases a.fixthresh <;> rfl
    · simp only [Bool.not_true, if_false] at h
      cases h

lemma processImage_threshadj_no_drift (c : Bool) (cm can : Arr) (mn : BMask)
    (t ab : ℚ) (y0 y1 x0 x1 : ℕ) (raw : Arr) :
    (processImage c false cm can mn t ab y0 y1 x0 x1 raw).threshadj = t := rfl

/-- C1: the claim says the segmentation mask of every image is computed from
that same image (corrected when lighting correction is on, raw otherwise).
The code disagrees: in parseAndRun.py line 275 the mask entries come from
`corrected_arrN`, the corrected array of the reference (latest) image, so
the mask ignores the current image entirely (second conjunct), and differs
from the mask the specification mandates for the current image (third
conjunct); timecourse_fixedpos.py line 243 additionally uses the raw
reference array even with correction enabled (fourth conjunct). -/
theorem c1_segmentation_mask_uses_reference_array :
    (processImage true false [[1]] [[1]] (maskFromThresh [[1]] 0) 0 0 0 1 0 1
        [[-1]]).mask = maskFromThresh [[1]] 0
    ∧ (∀ raw1 raw2 : Arr,
        (processImage true false [[1]] [[1]] (maskFromThresh [[1]] 0) 0 0 0 1 0 1
            raw1).mask
          = (processImage true false [[1]] [[1]] (maskFromThresh [[1]] 0) 0 0 0 1 0 1
              raw2).mask)
    ∧ (processImage true false [[1]] [[1]] (maskFromThresh [[1]] 0) 0 0 0 1 0 1
        [[-1]]).mask ≠ specSegMask true [[1]] [[-1]] 0
    ∧ (processImageTC true [[1]] [[1]] 0 [[-1]]).mask
        ≠ specSegMask true [[1]] [[-1]] 0 := by
  refine ⟨rfl, fun r1 r2 => rfl, ?_, ?_⟩ <;>
    simp [processImage, processImageTC, specSegMask, maskFromThresh, mul2]

/-- Arguments with a three-token grid format (`-o 24 16 1`). -/
def argsC2 : Args :=
  ⟨false, false, false, false, false, false, ("."), ("."), none, none,
    [("24"), ("16"), ("1")]⟩

/-- A directory scan with one unclaimed barcode. -/
def scanC2 : List (String × List String) :=
  [(("P1"), [("plates/late.jpg"), ("plates/early.jpg")])]

/-- C2: the claim says a grid format with three dimension tokens makes the
run fail fast before any image work, with zero images processed.  The code
disagrees: `buildVars` returns a normal configuration whose grid resolves
to `nrow * ncol = 0` (first conjunct), and `main` then claims the first
barcode (creating its lock marker) and opens both endpoint images with no
check on the degenerate grid (second conjunct). -/
theorem c2_malformed_grid_does_not_fail_fast :
    Except.map (fun c : Config => c.nrow * c.ncol) (buildVars argsC2) = Except.ok 0
    ∧ mainStartTrace argsC2 [] [] scanC2
      = Except.ok [Ev.lockCreate (markerName ("plates/early.jpg")),
          Ev.openImage ("plates/late.jpg"), Ev.openImage ("plates/early.jpg")] := by
  constructor
  · rfl
  · simp [mainStartTrace, buildVars, fmtStage, fdictStage, argsC2, scanC2,
      checkImages, getBarcodes, dropStarted, checkAnalysisStarted, prepareTC,
      pySorted, insertByKey, batchStartEventsPA, List.lookup]

/-- A filesystem in which the lock marker already exists with content. -/
def fsC3 : FS := [((markerName ("plates/P1_early.jpg")), ("claimed"))]

/-- C3 counterexample: with the marker already present (and nonempty), the
mode-"w" open of parseAndRun.py line 199 still succeeds and truncates the
existing marker to empty — the creation call does not fail when the marker
exists, and an existing marker is overwritten. -/
theorem c3_claim_truncates_existing_marker :
    fsC3.lookup (markerName ("plates/P1_early.jpg")) = some ("claimed")
    ∧ (claimMarker fsC3 ("plates/P1_early.jpg")).2 = true
    ∧ (claimMarker fsC3 ("plates/P1_early.jpg")).1.lookup
        (markerName ("plates/P1_early.jpg")) = some ("") := by
  refine ⟨by simp [fsC3, List.lookup], rfl, ?_⟩
  simp [claimMarker, openTruncate, List.lookup]

/-- C3 amended: claiming creates the lock marker with a truncating open
that always succeeds (an existing marker is overwritten with an empty
file); an already-claimed barcode leaves the local queue not through a
failed claim but through the `checkAnalysisStarted` re-filter (parseAndRun.py
line 300), which drops every barcode whose earliest-image marker now
exists. -/
theorem c3_amended_claim_always_succeeds : ∀ (fs : FS) (p : String)
    (d : List (String × List String)) (b : String) (ims : List String),
    ims.getLastD ("") = p →
    ((claimMarker fs p).2 = true
      ∧ ((claimMarker fs p).1.lookup (markerName p) = some (""))
      ∧ (b, ims) ∉ dropStarted (claimMarker fs p).1 d) := by
  intro fs p d b ims hlast
  refine ⟨rfl, by simp [claimMarker, openTruncate, List.lookup], ?_⟩
  intro hmem
  simp only [dropStarted, List.mem_filter] at hmem
  rcases hmem with ⟨-, hpred⟩
  rw [hlast] at hpred
  simp [checkAnalysisStarted, claimMarker, openTruncate, List.lookup] at hpred

/-- Witness for the amended C3 at a concrete filesystem and batch. -/
theorem c3_amended_claim_always_succeeds_witness :
    (claimMarker [] ("plates/P3_early.jpg")).2 = true
    ∧ ((claimMarker [] ("plates/P3_early.jpg")).1.lookup
        (markerName ("plates/P3_early.jpg")) = some (""))
    ∧ (("P3"), [("plates/P3_early.jpg")])
        ∉ dropStarted (claimMarker [] ("plates/P3_early.jpg")).1
          [(("P3"), [("plates/P3_early.jpg")])] :=
  c3_amended_claim_always_succeeds [] ("plates/P3_early.jpg")
    [(("P3"), [("plates/P3_early.jpg")])] ("P3") [("plates/P3_early.jpg")] rfl

/-- C4: a batch of `n` images on an `nrow` by `ncol` grid appends its rows
to the cumulative per-plate series in image-then-cell order (`batchRows` is
literally the concatenation of per-image row sets, each listing cells in
order); rows already in the series are preserved unchanged as a prefix
(first conjunct), and starting from the empty series the batch yields
exactly `n * (nrow * ncol)` rows (second conjunct). -/
theorem c4_cumulative_series_rows : ∀ (nrow ncol : ℕ) (imgs : List String)
    (s : List Row),
    processBatch nrow ncol imgs s = s ++ batchRows nrow ncol imgs
    ∧ (processBatch nrow ncol imgs []).length = imgs.length * (nrow * ncol) := by
  have key : ∀ (nrow ncol : ℕ) (imgs : List String) (s : List Row),
      processBatch nrow ncol imgs s = s ++ batchRows nrow ncol imgs := by
    intro nrow ncol imgs
    induction imgs with
    | nil => intro s; simp [processBatch, batchRows]
    | cons i is ih =>
        intro s
        have h1 : processBatch nrow ncol (i :: is) s
            = processBatch nrow ncol is (s ++ measureRows nrow ncol i) := rfl
        rw [h1, ih, batchRows, List.append_assoc]
  have hlen : ∀ (nrow ncol : ℕ) (imgs : List String),
      (batchRows nrow ncol imgs).length = imgs.length * (nrow * ncol) := by
    intro nrow ncol imgs
    induction imgs with
    | nil => simp [batchRows]
    | cons i is ih =>
        simp [batchRows, measureRows, ih, List.length_append, Nat.succ_mul,
          Nat.add_comm]
  intro nrow ncol imgs s
  refine ⟨key nrow ncol imgs s, ?_⟩
  rw [key, List.nil_append, hlen]

/-- C5: when a nonnegative fixed threshold override is supplied, the
segmentation threshold is exactly the override and the automatic fit is
never invoked (the result is the `fixed` alternative); with no override the
threshold comes from the automatic fit applied to the plate-wall-trimmed
reference array. -/
theorem c5_fixed_threshold_override : ∀ (a : Args) (cfg : Config) (arr : Arr)
    (loc : Locations) (dx dy : ℚ) (rows cols : ℕ),
    buildVars a = Except.ok cfg →
    ((∀ t : ℚ, a.fixthresh = some t → 0 ≤ t →
        threshStage cfg arr loc dx dy rows cols = ThreshSrc.fixed t)
      ∧ (a.fixthresh = none →
        threshStage cfg arr loc dx dy rows cols
          = ThreshSrc.autoFit (trimmedArr arr loc dx dy rows cols))) := by
  intro a cfg arr loc dx dy rows cols h
  obtain ⟨-, hft⟩ := buildVars_ok_fields a cfg h
  constructor
  · intro t ht hpos
    rw [threshStage, chooseThresh, hft, ht]
    simp [hpos]
  · intro ht
    rw [threshStage, chooseThresh, hft, ht]
    norm_num

/-- Arguments supplying the fixed threshold override 0.45. -/
def argsC5 : Args :=
  ⟨false, false, false, false, false, false, ("."), ("."), some (45 / 100), none,
    [("384")]⟩

/-- The configuration `buildVars` produces for `argsC5`. -/
def cfgC5 : Config :=
  ⟨false, 45 / 100, false, false, none, ("."), 16, 24, false, true, false⟩

/-- Culture locations for the witness runs. -/
def locC5 : Locations := ⟨[0, 2], [0, 2]⟩

/-- Witness for C5 at the concrete override 0.45. -/
theorem c5_fixed_threshold_override_witness :
    buildVars argsC5 = Except.ok cfgC5
    ∧ threshStage cfgC5 [[1]] locC5 1 1 1 1 = ThreshSrc.fixed (45 / 100) :=
  ⟨rfl, (c5_fixed_threshold_override argsC5 cfgC5 [[1]] locC5 1 1 1 1 rfl).1
    (45 / 100) rfl (by norm_num)⟩

/-- C6: with lighting correction disabled, `buildVars` reports drift
correction off (`diffims` is the conjunction of the two flags), so the
per-image loop takes the no-adjustment branch and the adjusted threshold
equals the base threshold exactly, for every image array. -/
theorem c6_no_drift_without_lighting_correction : ∀ (a : Args) (cfg : Config)
    (cm can : Arr) (mn : BMask) (t ab : ℚ) (y0 y1 x0 x1 : ℕ) (raw : Arr),
    a.lc = false → buildVars a = Except.ok cfg →
    (processImage cfg.lc cfg.diffims cm can mn t ab y0 y1 x0 x1 raw).threshadj
      = t := by
  intro a cfg cm can mn t ab y0 y1 x0 x1 raw hlc h
  obtain ⟨hd, -⟩ := buildVars_ok_fields a cfg h
  have hdf : cfg.diffims = false := by rw [hd, hlc, Bool.false_and]
  rw [hdf]
  exact processImage_threshadj_no_drift cfg.lc cm can mn t ab y0 y1 x0 x1 raw

/-- Arguments with lighting correction off but the drift flag set. -/
def argsC6 : Args :=
  ⟨false, true, false, false, false, false, ("."), ("."), none, none, [("384")]⟩

/-- The configuration `buildVars` produces for `argsC6`. -/
def cfgC6 : Config :=
  ⟨false, -99, false, false, none, ("."), 16, 24, false, true, false⟩

/-- Witness for C6 at a concrete configuration and image. -/
theorem c6_no_drift_without_lighting_correction_witness :
    buildVars argsC6 = Except.ok cfgC6
    ∧ (processImage cfgC6.lc cfgC6.diffims [[1]] [[1]] [[true]] 5 0 0 1 0 1
        [[2]]).threshadj = 5 :=
  ⟨rfl, c6_no_drift_without_lighting_correction argsC6 cfgC6 [[1]] [[1]] [[true]]
    5 0 0 1 0 1 [[2]] rfl rfl⟩

/-- C7 counterexample: for a single-timepoint batch (latest and earliest
are the same file), timecourse_fixedpos.py lines 177-180 open that image
file twice — the program does not always skip the second open. -/
theorem c7_timecourse_reopens_single_image :
    batchStartEventsTC ("d/a.jpg") ("d/a.jpg")
      = [Ev.lockCreate (markerName ("d/a.jpg")), Ev.openImage ("d/a.jpg"),
          Ev.openImage ("d/a.jpg")]
    ∧ (batchStartEventsTC ("d/a.jpg") ("d/a.jpg")).count
        (Ev.openImage ("d/a.jpg")) = 2 := by
  refine ⟨rfl, ?_⟩
  simp [batchStartEventsTC, List.count_cons]

/-- C7 amended: parseAndRun.py (lines 204-207) skips the second open and
reuses the loaded image when the latest and earliest images coincide, so
its trace opens the file exactly once; timecourse_fixedpos.py performs the
second open unconditionally and opens the same file twice. -/
theorem c7_amended_single_open : ∀ p : String,
    batchStartEventsPA p p = [Ev.lockCreate (markerName p), Ev.openImage p]
    ∧ (batchStartEventsPA p p).count (Ev.openImage p) = 1
    ∧ (batchStartEventsTC p p).count (Ev.openImage p) = 2 := by
  intro p
  refine ⟨by simp [batchStartEventsPA], ?_, ?_⟩ <;>
    simp [batchStartEventsPA, batchStartEventsTC, List.count_cons]

/-- C8: the claim says that in signal-removal mode (lighting correction
with the cut option) the correction model is built from the inpainted
pseudo-empty plate and the reference array is multiplied by the map.  The
code disagrees: the only assignments to `correction_map` and
`corrected_arrN` sit in the cut-off branch, so cut mode raises `NameError`
at the first use (first conjunct) while the model is built from the raw
earliest image only when cut is off (second conjunct). -/
theorem c8_cut_mode_raises_name_error : ∀ (arr0 arrN : Arr) (loc : Locations),
    correctionStage true true arr0 arrN loc = Except.error PyErr.nameError
    ∧ correctionStage true false arr0 arrN loc
      = Except.ok ⟨some (makeCorrectionMap arr0 loc).1,
          (makeCorrectionMap arr0 loc).2,
          mul2 arrN (makeCorrectionMap arr0 loc).1⟩ := by
  intro a b l
  exact ⟨rfl, rfl⟩

/-- C9: if the lock marker for the earliest image of a barcode exists, a
fresh index build — from a manifest or from a directory scan — never
includes that barcode. -/
theorem c9_index_excludes_claimed_barcodes : ∀ (fs : FS)
    (manifest : Option (List (String × List String)))
    (scan : List (String × List String)) (b : String) (ims : List String),
    checkAnalysisStarted fs (ims.getLastD ("")) = true →
    (b, ims) ∉ checkImages fs manifest scan := by
  intro fs m scan b ims h hmem
  cases m <;>
    simp only [checkImages, getBarcodes, dropStarted, List.mem_filter] at hmem <;>
    rcases hmem with ⟨-, hpred⟩ <;> rw [h] at hpred <;> cases hpred

/-- A filesystem holding the lock marker of the P2 batch. -/
def fsC9 : FS := [((markerName ("plates/P2_early.jpg")), (""))]

/-- A manifest containing only the P2 batch. -/
def manifestC9 : List (String × List String) :=
  [(("P2"), [("plates/P2_late.jpg"), ("plates/P2_early.jpg")])]

/-- Witness for C9 at a concrete marker and manifest. -/
theorem c9_index_excludes_claimed_barcodes_witness :
    checkAnalysisStarted fsC9 ("plates/P2_early.jpg") = true
    ∧ (("P2"), [("plates/P2_late.jpg"), ("plates/P2_early.jpg")])
        ∉ checkImages fsC9 (some manifestC9) [] :=
  ⟨by simp [checkAnalysisStarted, fsC9, List.lookup],
    c9_index_excludes_claimed_barcodes fsC9 (some manifestC9) [] ("P2")
      [("plates/P2_late.jpg"), ("plates/P2_early.jpg")]
      (by simp [checkAnalysisStarted, fsC9, List.lookup])⟩

/-- C10: with the quiet flag set (and the earlier grid-format stage
succeeding, since a malformed format raises `ValueError` first), `buildVars`
raises an uncaught `NameError` instead of returning a configuration — the
`diffIms` and `cut` locals are assigned only inside the verbose-reporting
branch — so quiet mode can never proceed to process images. -/
theorem c10_quiet_mode_name_error : ∀ (a : Args) (nc : ℤ × ℤ),
    a.quiet = true → fmtStage a.fmt = Except.ok nc →
    buildVars a = Except.error PyErr.nameError := by
  intro a nc hq hf
  unfold buildVars
  rw [hf, hq]
  rfl

/-- Arguments with the quiet flag set. -/
def argsC10 : Args :=
  ⟨true, true, false, false, true, true, ("."), ("."), none, none, [("384")]⟩

/-- Witness for C10 at a concrete quiet invocation. -/
theorem c10_quiet_mode_name_error_witness :
    fmtStage argsC10.fmt = Except.ok (16, 24)
    ∧ buildVars argsC10 = Except.error PyErr.nameError :=
  ⟨rfl, c10_quiet_mode_name_error argsC10 (16, 24) rfl rfl⟩
